import Mathlib

/-!
# OpenGL quad sample: shader splitting, GL error checking and the run of `main`

A shallow embedding of `src/main.cpp`.

* Text is `List Char`; a `std::string` is the list of its characters.
* A file stream is the list of characters still unread.
* Loops whose bound is not syntactic carry a fuel argument; the entry points
  pass a fuel computed from their input and the theorems show it is enough.
* An array access outside the array is a `Fault`, not a value.
-/

namespace OpenGLTest

deriving instance DecidableEq for Except

/-! ## Strings -/

abbrev Text := List Char

/-- Whether `pat` occurs in `s` starting at its first character. -/
def startsWith (pat : Text) (s : Text) : Bool :=
  match pat, s with
  | [], _ => true
  | _ :: _, [] => false
  | p :: ps, c :: cs => p == c && startsWith ps cs

/-- Search of `std::string::find` from position `pos`: the position of the first
occurrence of `pat`, `none` standing for `std::string::npos`. -/
def findFrom (pat : Text) : Text → Nat → Option Nat
  | [], pos => if startsWith pat [] then some pos else none
  | c :: s, pos => if startsWith pat (c :: s) then some pos else findFrom pat s (pos + 1)

/-- Model of `std::string::find(pat)`. -/
def find (s : Text) (pat : Text) : Option Nat := findFrom pat s 0

/-- The test `s.find(pat) != std::string::npos`. -/
def found (s : Text) (pat : Text) : Bool := (find s pat).isSome

def kwShader : Text := ['#', 's', 'h', 'a', 'd', 'e', 'r']
def kwVertex : Text := ['v', 'e', 'r', 't', 'e', 'x']
def kwFragment : Text := ['f', 'r', 'a', 'g', 'm', 'e', 'n', 't']

/-! ## The file stream -/

/-- Model of `std::getline(stream, line)` on the unread characters of the stream: `none` when
nothing can be extracted (the stream is at its end, the call evaluates to false);
otherwise the characters up to the first newline, and the stream after that newline. -/
def getline (stream : Text) : Option (Text × Text) :=
  match stream with
  | [] => none
  | _ :: _ => some (stream.takeWhile (fun c => c != '\n'), (stream.dropWhile (fun c => c != '\n')).drop 1)

/-! ## parseShader -/

structure ShaderProgramSource where
  VertexSource : Text
  FragmentSource : Text
  deriving DecidableEq, Repr

inductive ShaderType where
  | NONE
  | VERTEX
  | FRAGMENT
  deriving DecidableEq, Repr

/-- The cast `(int)type`: the enumerators are declared `NONE = -1, VERTEX = 0, FRAGMENT = 1`. -/
def ShaderType.toInt : ShaderType → Int
  | .NONE => -1
  | .VERTEX => 0
  | .FRAGMENT => 1

inductive Fault where
  | outOfBounds (index : Int)
  | outOfFuel
  deriving DecidableEq, Repr

/-- The array `std::stringstream ss[2]`, each stream by the text written to it so far. -/
structure Buckets where
  ss0 : Text
  ss1 : Text
  deriving DecidableEq, Repr

/-- The statement `ss[i] << line << newline`: defined only for an index inside the array. -/
def Buckets.write (ss : Buckets) (i : Int) (line : Text) : Except Fault Buckets :=
  if i = 0 then .ok { ss with ss0 := ss.ss0 ++ line ++ ['\n'] }
  else if i = 1 then .ok { ss with ss1 := ss.ss1 ++ line ++ ['\n'] }
  else .error (.outOfBounds i)

/-- One execution of the body of the `while` loop of `parseShader` on `line`. -/
def parseStep (type : ShaderType) (ss : Buckets) (line : Text) : Except Fault (ShaderType × Buckets) :=
  if found line kwShader then
    if found line kwVertex then .ok (.VERTEX, ss)
    else if found line kwFragment then .ok (.FRAGMENT, ss)
    else .ok (type, ss)
  else
    (ss.write type.toInt line).map (fun ss1 => (type, ss1))

/-- The loop `while (getline(stream, line))` of `parseShader`, followed by its `return`. -/
def parseLoop : Nat → Text → ShaderType → Buckets → Except Fault ShaderProgramSource
  | 0, _, _, _ => .error .outOfFuel
  | fuel + 1, stream, type, ss =>
    match getline stream with
    | none => .ok { VertexSource := ss.ss0, FragmentSource := ss.ss1 }
    | some (line, rest) =>
      match parseStep type ss line with
      | .error f => .error f
      | .ok (type1, ss1) => parseLoop fuel rest type1 ss1

/-- Model of `parseShader`, on the content of the file at `filePath` (a file that cannot be
opened reads as the empty content: the first `getline` fails). -/
def parseShader (content : Text) : Except Fault ShaderProgramSource :=
  parseLoop (content.length + 1) content .NONE { ss0 := [], ss1 := [] }

/-- The lines that successive calls of `getline` extract from a stream. -/
def linesLoop : Nat → Text → List Text
  | 0, _ => []
  | fuel + 1, stream =>
    match getline stream with
    | none => []
    | some (line, rest) => line :: linesLoop fuel rest

def inputLines (content : Text) : List Text := linesLoop (content.length + 1) content

/-- The loop body of `parseShader` run over a sequence of lines already extracted. -/
def routeLines : List Text → ShaderType → Buckets → Except Fault (ShaderType × Buckets)
  | [], type, ss => .ok (type, ss)
  | line :: rest, type, ss =>
    match parseStep type ss line with
    | .error f => .error f
    | .ok (type1, ss1) => routeLines rest type1 ss1

/-! ### The routing rule in the words of the specification -/

/-- A marker line is a line containing `#shader`. -/
def isMarker (line : Text) : Bool := found line kwShader

/-- The stage a line selects: a marker line selects vertex if it also contains `vertex`,
else fragment if it contains `fragment`; any other line selects nothing. -/
def selects (line : Text) : Option ShaderType :=
  if isMarker line then
    if found line kwVertex then some .VERTEX
    else if found line kwFragment then some .FRAGMENT
    else none
  else none

/-- The stage selected by the most recent stage-selecting marker among the lines before
position `i`. -/
def recentStage (lines : List Text) (i : Nat) : Option ShaderType :=
  (lines.take i).reverse.findSome? selects

/-- Line `i` is not a marker and its most recent stage-selecting marker selects `t`. -/
def routedTo (lines : List Text) (t : ShaderType) (i : Nat) : Bool :=
  !isMarker (lines.getD i []) && recentStage lines i == some t

/-- The concatenation, in input order, of (line followed by a newline) over the lines routed
to stage `t`. -/
def specSource (lines : List Text) (t : ShaderType) : Text :=
  (((List.range lines.length).filter (routedTo lines t)).map
    (fun i => lines.getD i [] ++ ['\n'])).flatten

/-- The first non-marker line is preceded by a line containing `#shader` and one of
`vertex`, `fragment`. -/
def WellStarted (lines : List Text) : Prop :=
  ∀ pre l post, lines = pre ++ l :: post → (∀ m ∈ pre, isMarker m = true) →
    isMarker l = false → ∃ m ∈ pre, (selects m).isSome = true

/-- Every non-marker line has a stage-selecting marker somewhere before it. -/
def AllRouted (lines : List Text) : Prop :=
  ∀ pre x post, lines = pre ++ x :: post → isMarker x = false →
    (pre.reverse.findSome? selects).isSome = true

/-- Executable form of `WellStarted`. -/
def wellStartedB : List Text → Bool
  | [] => true
  | l :: ls => isMarker l && ((selects l).isSome || wellStartedB ls)


/-- The text made of the given lines, each followed by a newline. -/
def unlines (ls : List Text) : Text := (ls.map (fun l => l ++ ['\n'])).flatten

def vertexMarker : Text := "#shader vertex".toList
def fragmentMarker : Text := "#shader fragment".toList

/-- A text is empty or ends with a newline. -/
def endsWithNewlineOrEmpty (s : Text) : Prop := s = [] ∨ s.getLast? = some '\n'

/-- A text made of newline-terminated lines none of which contains `#shader`. -/
def Unmarked (s : Text) : Prop := ∃ ls : List Text, s = unlines ls ∧ ∀ l ∈ ls, found l kwShader = false

/-! ## The OpenGL error queue -/

abbrev GLenum := Nat

/-! Values of the OpenGL, GLEW and GLFW header constants the program uses. -/

def GL_NO_ERROR : GLenum := 0
def GL_FALSE : Nat := 0
def GL_TRUE : Nat := 1
def GL_TRIANGLES : GLenum := 0x0004
def GL_UNSIGNED_INT : GLenum := 0x1405
def GL_FLOAT : GLenum := 0x1406
def GL_VERSION : GLenum := 0x1F02
def GL_COLOR_BUFFER_BIT : Nat := 0x4000
def GL_ARRAY_BUFFER : GLenum := 0x8892
def GL_ELEMENT_ARRAY_BUFFER : GLenum := 0x8893
def GL_STATIC_DRAW : GLenum := 0x88E4
def GL_FRAGMENT_SHADER : GLenum := 0x8B30
def GL_VERTEX_SHADER : GLenum := 0x8B31
def GL_COMPILE_STATUS : GLenum := 0x8B81
def GL_INFO_LOG_LENGTH : GLenum := 0x8B84
def SIGTRAP : Nat := 5

/-- A pending OpenGL error: an error code, which is never `GL_NO_ERROR`. -/
structure GLError where
  code : GLenum
  nonzero : code ≠ GL_NO_ERROR
  deriving DecidableEq, Repr

/-- The calls the program makes to the outside: OpenGL, GLEW, GLFW, the C++ streams and the
C runtime. Pointer arguments are given by what they point to. -/
inductive Call where
  | glfwInit
  | glfwCreateWindow (width height : Nat) (title : String)
  | glfwTerminate
  | glfwMakeContextCurrent
  | glewInit
  | cerr (text : String)
  | cout (text : String)
  | abort
  | raise (sig : Nat)
  | glGetString (name : GLenum)
  | glGenVertexArrays (n : Nat)
  | glBindVertexArray (array : Nat)
  | glGenBuffers (n : Nat)
  | glBindBuffer (target : GLenum) (buffer : Nat)
  | glBufferData (target : GLenum) (size : Nat) (data : List Nat) (usage : GLenum)
  | glEnableVertexAttribArray (index : Nat)
  | glVertexAttribPointer (index size : Nat) (type : GLenum) (normalized : Nat)
      (stride : Nat) (pointer : Nat)
  | fstream (filePath : String)
  | glCreateProgram
  | glCreateShader (type : GLenum)
  | glShaderSource (shader : Nat) (count : Nat) (source : Text)
  | glCompileShader (shader : Nat)
  | glGetShaderiv (shader : Nat) (pname : GLenum)
  | glGetShaderInfoLog (shader : Nat) (maxLength : Nat)
  | glDeleteShader (shader : Nat)
  | glAttachShader (program shader : Nat)
  | glLinkProgram (program : Nat)
  | glValidateProgram (program : Nat)
  | glUseProgram (program : Nat)
  | glfwWindowShouldClose
  | glClear (mask : Nat)
  | glGetError
  | glDrawElements (mode : GLenum) (count : Nat) (type : GLenum) (indices : Nat)
  | glfwSwapBuffers
  | glfwPollEvents
  | glDeleteProgram (program : Nat)
  deriving DecidableEq, Repr

/-- What the program has done to the outside so far: the calls made, oldest first, and the
OpenGL errors raised and not yet fetched, oldest first. -/
structure World where
  calls : List Call
  errors : List GLError
  deriving DecidableEq, Repr

/-- A call that raises no OpenGL error (streams, signals, the C runtime). -/
def World.log (w : World) (c : Call) : World :=
  { w with calls := w.calls ++ [c] }

/-- Model of `glGetError()`: the oldest pending error is returned and removed; with none
pending, `GL_NO_ERROR`. -/
def glGetError (w : World) : GLenum × World :=
  match w.errors with
  | [] => (GL_NO_ERROR, w.log .glGetError)
  | e :: es => (e.code, { calls := w.calls ++ [.glGetError], errors := es })

/-- The loop `while (glGetError() != GL_NO_ERROR);` of `glClearError`. -/
def glClearErrorLoop : Nat → World → Option World
  | 0, _ => none
  | fuel + 1, w =>
    match glGetError w with
    | (error, w1) => if error != GL_NO_ERROR then glClearErrorLoop fuel w1 else some w1

/-- Model of `glClearError`; `none` would be a loop that does not end. -/
def glClearError (w : World) : Option World :=
  glClearErrorLoop (w.errors.length + 1) w

/-- Model of `glLogCall`: the body of its `while` returns on the first pass, so the loop is
one fetch and one test. -/
def glLogCall (function file : String) (line : Nat) (w : World) : Bool × World :=
  match glGetError w with
  | (error, w1) =>
    if error != 0 then
      (false, w1.log (.cerr ("[OpenGL Error] (" ++ toString error ++ "): " ++ function ++ " "
        ++ file ++ ":" ++ toString line ++ "\n")))
    else
      (true, w1)

/-- Model of the macro `GLCALL(x)`, which expands to `glClearError(); x;
ASSERT(glLogCall(#x, __FILE__, __LINE__))`, `ASSERT(c)` being `if (!(c)) raise(SIGTRAP)`.
The boolean tells whether the signal was raised. -/
def GLCALL (function file : String) (line : Nat) (x : World → World) (w : World) :
    Option (Bool × World) :=
  match glClearError w with
  | none => none
  | some w1 =>
    match glLogCall function file line (x w1) with
    | (ok, w3) => if !ok then some (true, w3.log (.raise SIGTRAP)) else some (false, w3)

/-! ## The environment of a run -/

/-- What the outside answers during one run of the program. -/
structure Env where
  /-- Whether `glfwInit()` reports success. -/
  glfwInitOk : Bool
  /-- Whether `glfwCreateWindow` returns a window. -/
  windowOk : Bool
  /-- Whether `glewInit()` returns `GLEW_OK`. -/
  glewOk : Bool
  /-- The string `glGetString(GL_VERSION)` returns. -/
  version : String
  /-- The names `glGenVertexArrays` and the two `glGenBuffers` calls write. -/
  vao : Nat
  buffer : Nat
  ibo : Nat
  /-- The content of the shader file. -/
  shaderFile : Text
  /-- The value of `glCreateProgram()`. -/
  program : Nat
  /-- The value of `glCreateShader(type)`. -/
  shaderId : GLenum → Nat
  /-- The compile status of a source for a stage. -/
  compileOk : GLenum → Text → Bool
  /-- The info log of that compilation. -/
  infoLog : GLenum → Text → String
  /-- Whether the program links. -/
  linkOk : Bool
  /-- The OpenGL errors raised by the call made after `i` earlier calls. -/
  raises : Nat → List GLError
  /-- How many times `glfwWindowShouldClose` answers no before it answers yes. -/
  frames : Nat
  /-- The expansion of `__FILE__`. -/
  sourceFile : String

/-- A call into OpenGL, GLEW or GLFW: it is recorded and may raise OpenGL errors. -/
def call (env : Env) (c : Call) (w : World) : World :=
  { calls := w.calls ++ [c], errors := w.errors ++ env.raises w.calls.length }

/-! ## Shader compilation -/

/-- Model of `compileShader`. -/
def compileShader (env : Env) (type : GLenum) (source : Text) (w : World) : Nat × World :=
  let id := env.shaderId type
  let w := call env (.glCreateShader type) w
  let w := call env (.glShaderSource id 1 source) w
  let w := call env (.glCompileShader id) w
  let result := if env.compileOk type source then GL_TRUE else GL_FALSE
  let w := call env (.glGetShaderiv id GL_COMPILE_STATUS) w
  if result == GL_FALSE then
    let message := env.infoLog type source
    let length := message.length + 1
    let w := call env (.glGetShaderiv id GL_INFO_LOG_LENGTH) w
    let w := call env (.glGetShaderInfoLog id length) w
    let w := w.log (.cout ("Failed to compile "
      ++ (if type == GL_VERTEX_SHADER then "vertex" else "fragment")
      ++ " shader!\n" ++ message ++ "\n"))
    let w := call env (.glDeleteShader id) w
    (0, w)
  else
    (id, w)

/-- Model of `createShader`. -/
def createShader (env : Env) (vertexShader fragmentShader : Text) (w : World) : Nat × World :=
  let program := env.program
  let w := call env .glCreateProgram w
  match compileShader env GL_VERTEX_SHADER vertexShader w with
  | (vs, w) =>
    match compileShader env GL_FRAGMENT_SHADER fragmentShader w with
    | (fs, w) =>
      let w := call env (.glAttachShader program vs) w
      let w := call env (.glAttachShader program fs) w
      let w := call env (.glLinkProgram program) w
      let w := call env (.glValidateProgram program) w
      let w := call env (.glDeleteShader vs) w
      let w := call env (.glDeleteShader fs) w
      (program, w)

/-! ## main -/

/-- Size in bytes of a `float` and of an `unsigned int`. -/
def sizeofFloat : Nat := 4
def sizeofUnsignedInt : Nat := 4

/-- The array `positions`, each `float` by its IEEE 754 bit pattern: `-0.5f` is `0xBF000000`
and `0.5f` is `0x3F000000`. -/
def positions : List Nat :=
  [0xBF000000, 0xBF000000,
   0x3F000000, 0xBF000000,
   0x3F000000, 0x3F000000,
   0xBF000000, 0x3F000000]

/-- The array `indices`. -/
def indices : List Nat :=
  [0, 1, 2,
   2, 3, 0]

/-- The size argument of the first `glBufferData` call: `6 * 2 * sizeof(positions[0])`. -/
def vertexUploadSize : Nat := 6 * 2 * sizeofFloat

/-- The size argument of the second `glBufferData` call: `6 * 2 * sizeof(indices[0])`. -/
def indexUploadSize : Nat := 6 * 2 * sizeofUnsignedInt

/-- The component count and the stride argument of `glVertexAttribPointer`:
`2` and `sizeof(positions[0]) * 2`. -/
def attribComponents : Nat := 2
def attribStride : Nat := sizeofFloat * 2

/-- The count argument of `glDrawElements`. -/
def drawCount : Nat := 6

def shaderPath : String := "./res/shaders/basic.shader"

/-- The text `#x` of the wrapped draw call. -/
def drawText : String := "glDrawElements(GL_TRIANGLES, 6, GL_UNSIGNED_INT, nullptr)"

/-- The wrapped statement of line 187. -/
def drawElements (env : Env) (w : World) : World :=
  call env (.glDrawElements GL_TRIANGLES drawCount GL_UNSIGNED_INT 0) w

/-- How a run ends. -/
inductive Outcome where
  | returned (code : Int)
  | aborted
  | trapped
  | fault (f : Fault)
  deriving DecidableEq, Repr

/-- The loop `while (!glfwWindowShouldClose(window))` of `main`, the first argument being
the number of times the window still answers no. `none` is the normal exit of the loop. -/
def renderLoop (env : Env) : Nat → World → Option Outcome × World
  | 0, w => (none, call env .glfwWindowShouldClose w)
  | n + 1, w =>
    let w := call env .glfwWindowShouldClose w
    let w := call env (.glClear GL_COLOR_BUFFER_BIT) w
    match GLCALL drawText env.sourceFile 187 (drawElements env) w with
    | none => (some (.fault .outOfFuel), w)
    | some (true, w) => (some .trapped, w)
    | some (false, w) =>
      let w := call env .glfwSwapBuffers w
      let w := call env .glfwPollEvents w
      renderLoop env n w

/-- Model of `main`: how the run ends, and the calls it made. -/
def main (env : Env) : Outcome × World :=
  let w : World := { calls := [], errors := [] }
  let w := call env .glfwInit w
  if !env.glfwInitOk then (.returned (-1), w)
  else
    let w := call env (.glfwCreateWindow 640 480 "Hello World") w
    if !env.windowOk then
      let w := call env .glfwTerminate w
      (.returned (-1), w)
    else
      let w := call env .glfwMakeContextCurrent w
      let w := call env .glewInit w
      if !env.glewOk then
        let w := w.log (.cerr "Error: Glew failed to initialize!\n")
        let w := w.log .abort
        (.aborted, w)
      else
        let w := call env (.glGetString GL_VERSION) w
        let w := w.log (.cout (env.version ++ "\n"))
        let w := call env (.glGenVertexArrays 1) w
        let w := call env (.glBindVertexArray env.vao) w
        let w := call env (.glGenBuffers 1) w
        let w := call env (.glBindBuffer GL_ARRAY_BUFFER env.buffer) w
        let w := call env (.glBufferData GL_ARRAY_BUFFER vertexUploadSize positions GL_STATIC_DRAW) w
        let w := call env (.glEnableVertexAttribArray 0) w
        let w := call env (.glVertexAttribPointer 0 attribComponents GL_FLOAT GL_FALSE attribStride 0) w
        let w := call env (.glGenBuffers 1) w
        let w := call env (.glBindBuffer GL_ELEMENT_ARRAY_BUFFER env.ibo) w
        let w := call env (.glBufferData GL_ELEMENT_ARRAY_BUFFER indexUploadSize indices GL_STATIC_DRAW) w
        let w := w.log (.fstream shaderPath)
        match parseShader env.shaderFile with
        | .error f => (.fault f, w)
        | .ok source =>
          match createShader env source.VertexSource source.FragmentSource w with
          | (shader, w) =>
            let w := call env (.glUseProgram shader) w
            match renderLoop env env.frames w with
            | (some outcome, w) => (outcome, w)
            | (none, w) =>
              let w := call env (.glDeleteProgram shader) w
              let w := call env .glfwTerminate w
              (.returned 0, w)

/-- An environment in which everything succeeds, no OpenGL error is raised and the window
closes after two frames. -/
def sampleEnv : Env :=
  { glfwInitOk := true, windowOk := true, glewOk := true, version := "4.6",
    vao := 1, buffer := 1, ibo := 2,
    shaderFile := "#shader vertex\nv\n#shader fragment\nf\n".toList,
    program := 3, shaderId := fun t => if t == GL_VERTEX_SHADER then 1 else 2,
    compileOk := fun _ _ => true, infoLog := fun _ _ => "", linkOk := true,
    raises := fun _ => [], frames := 2, sourceFile := "src/main.cpp" }

/-- The world once every pending error has been fetched: one `glGetError` call per pending
error and the one that finds none. -/
def drained (w : World) : World :=
  { calls := w.calls ++ List.replicate (w.errors.length + 1) .glGetError, errors := [] }

/-! ## Vocabulary for the run of `main` -/

/-- Calls that belong to GPU work or to the render loop: every call other than those of the
window system start-up, the function loader, the console and the C runtime. -/
def isGpuWork : Call → Bool
  | .glfwInit => false
  | .glfwCreateWindow _ _ _ => false
  | .glfwTerminate => false
  | .glfwMakeContextCurrent => false
  | .glewInit => false
  | .cerr _ => false
  | .cout _ => false
  | .abort => false
  | .raise _ => false
  | _ => true

/-- An environment in which `glfwInit` fails. -/
def envNoGlfw : Env := { sampleEnv with glfwInitOk := false }

/-- An environment in which no window can be created. -/
def envNoWindow : Env := { sampleEnv with windowOk := false }

/-- An environment in which the function loader fails. -/
def envNoGlew : Env := { sampleEnv with glewOk := false }

/-- The calls of one `compileShader` run: four in all cases, then on a failed compilation
the query of the log length, the fetch of the log, the diagnostic and the deletion. -/
def compileCalls (env : Env) (type : GLenum) (source : Text) : List Call :=
  [.glCreateShader type, .glShaderSource (env.shaderId type) 1 source,
   .glCompileShader (env.shaderId type), .glGetShaderiv (env.shaderId type) GL_COMPILE_STATUS]
  ++ (if env.compileOk type source then []
      else [.glGetShaderiv (env.shaderId type) GL_INFO_LOG_LENGTH,
            .glGetShaderInfoLog (env.shaderId type) ((env.infoLog type source).length + 1),
            .cout ("Failed to compile "
              ++ (if type == GL_VERTEX_SHADER then "vertex" else "fragment")
              ++ " shader!\n" ++ env.infoLog type source ++ "\n"),
            .glDeleteShader (env.shaderId type)])

/-- The value `compileShader` returns. -/
def compiledId (env : Env) (type : GLenum) (source : Text) : Nat :=
  if env.compileOk type source then env.shaderId type else 0

/-- The calls of one `createShader` run. -/
def createCalls (env : Env) (vertexShader fragmentShader : Text) : List Call :=
  [.glCreateProgram] ++ compileCalls env GL_VERTEX_SHADER vertexShader
  ++ compileCalls env GL_FRAGMENT_SHADER fragmentShader
  ++ [.glAttachShader env.program (compiledId env GL_VERTEX_SHADER vertexShader),
      .glAttachShader env.program (compiledId env GL_FRAGMENT_SHADER fragmentShader),
      .glLinkProgram env.program, .glValidateProgram env.program,
      .glDeleteShader (compiledId env GL_VERTEX_SHADER vertexShader),
      .glDeleteShader (compiledId env GL_FRAGMENT_SHADER fragmentShader)]

/-- Console output. -/
def isPrint : Call → Bool
  | .cout _ => true
  | .cerr _ => true
  | _ => false

/-- An environment in which both stages compile and the program does not link. -/
def envLinkFails : Env := { sampleEnv with linkOk := false }

/-- An environment in which the vertex stage does not compile. -/
def envVertexFails : Env :=
  { sampleEnv with compileOk := fun t _ => t != GL_VERTEX_SHADER, infoLog := fun _ _ => "0:1 error" }

/-- Window and context initialisation. -/
def initCalls : List Call :=
  [.glfwInit, .glfwCreateWindow 640 480 "Hello World", .glfwMakeContextCurrent]

/-- GPU function loading, and the version line. -/
def loaderCalls (env : Env) : List Call :=
  [.glewInit, .glGetString GL_VERSION, .cout (env.version ++ "\n")]

/-- Geometry upload: vertex array, vertex buffer, attribute layout, index buffer. -/
def uploadCalls (env : Env) : List Call :=
  [.glGenVertexArrays 1, .glBindVertexArray env.vao,
   .glGenBuffers 1, .glBindBuffer GL_ARRAY_BUFFER env.buffer,
   .glBufferData GL_ARRAY_BUFFER vertexUploadSize positions GL_STATIC_DRAW,
   .glEnableVertexAttribArray 0,
   .glVertexAttribPointer 0 attribComponents GL_FLOAT GL_FALSE attribStride 0,
   .glGenBuffers 1, .glBindBuffer GL_ELEMENT_ARRAY_BUFFER env.ibo,
   .glBufferData GL_ELEMENT_ARRAY_BUFFER indexUploadSize indices GL_STATIC_DRAW]

/-- Shader parse, compile, link and use. -/
def shaderCalls (env : Env) (source : ShaderProgramSource) : List Call :=
  [.fstream shaderPath] ++ createCalls env source.VertexSource source.FragmentSource
  ++ [.glUseProgram env.program]

/-- One pass of the render loop whose draw finds `pending` errors to fetch first and raises
none: the loop test, the clear, the wrapped draw, the swap and the poll. -/
def frameCalls (pending : Nat) : List Call :=
  [.glfwWindowShouldClose, .glClear GL_COLOR_BUFFER_BIT]
  ++ List.replicate (pending + 1) .glGetError
  ++ [.glDrawElements GL_TRIANGLES drawCount GL_UNSIGNED_INT 0, .glGetError,
      .glfwSwapBuffers, .glfwPollEvents]

/-- The last loop test and the teardown. -/
def teardownCalls (env : Env) : List Call :=
  [.glfwWindowShouldClose, .glDeleteProgram env.program, .glfwTerminate]

/-- The four steps of a frame: clear, draw, swap buffers, poll events. -/
def renderSteps : List Call :=
  [.glClear GL_COLOR_BUFFER_BIT, .glDrawElements GL_TRIANGLES drawCount GL_UNSIGNED_INT 0,
   .glfwSwapBuffers, .glfwPollEvents]

def isRenderStep (c : Call) : Bool := decide (c ∈ renderSteps)

/-- Calls of geometry upload or of shader parsing and compilation. -/
def isUploadOrCompile : Call → Bool
  | .glGenVertexArrays _ => true
  | .glBindVertexArray _ => true
  | .glGenBuffers _ => true
  | .glBindBuffer _ _ => true
  | .glBufferData _ _ _ _ => true
  | .glEnableVertexAttribArray _ => true
  | .glVertexAttribPointer _ _ _ _ _ _ => true
  | .fstream _ => true
  | .glCreateProgram => true
  | .glCreateShader _ => true
  | .glShaderSource _ _ _ => true
  | .glCompileShader _ => true
  | .glGetShaderiv _ _ => true
  | .glGetShaderInfoLog _ _ => true
  | .glDeleteShader _ => true
  | .glAttachShader _ _ => true
  | .glLinkProgram _ => true
  | .glValidateProgram _ => true
  | .glUseProgram _ => true
  | _ => false

/-- The world in which `main` enters its loop when start-up and parsing have succeeded. -/
def worldAtLoop (env : Env) (source : ShaderProgramSource) : World :=
  let w : World := { calls := [], errors := [] }
  let w := call env .glfwInit w
  let w := call env (.glfwCreateWindow 640 480 "Hello World") w
  let w := call env .glfwMakeContextCurrent w
  let w := call env .glewInit w
  let w := call env (.glGetString GL_VERSION) w
  let w := w.log (.cout (env.version ++ "\n"))
  let w := call env (.glGenVertexArrays 1) w
  let w := call env (.glBindVertexArray env.vao) w
  let w := call env (.glGenBuffers 1) w
  let w := call env (.glBindBuffer GL_ARRAY_BUFFER env.buffer) w
  let w := call env (.glBufferData GL_ARRAY_BUFFER vertexUploadSize positions GL_STATIC_DRAW) w
  let w := call env (.glEnableVertexAttribArray 0) w
  let w := call env (.glVertexAttribPointer 0 attribComponents GL_FLOAT GL_FALSE attribStride 0) w
  let w := call env (.glGenBuffers 1) w
  let w := call env (.glBindBuffer GL_ELEMENT_ARRAY_BUFFER env.ibo) w
  let w := call env (.glBufferData GL_ELEMENT_ARRAY_BUFFER indexUploadSize indices GL_STATIC_DRAW) w
  let w := w.log (.fstream shaderPath)
  call env (.glUseProgram env.program)
    (createShader env source.VertexSource source.FragmentSource w).2

/-! # Theorems -/

/-! ## Lines of a stream -/

theorem getline_length {s line rest : Text} (h : getline s = some (line, rest)) :
    rest.length < s.length := by
  cases s with
  | nil => simp [getline] at h
  | cons c cs =>
    simp only [getline, Option.some.injEq, Prod.mk.injEq] at h
    rw [← h.2]
    have h1 : ((c :: cs).dropWhile (fun c => c != '\n')).length ≤ (c :: cs).length :=
      (List.dropWhile_sublist _).length_le
    cases hd : (c :: cs).dropWhile (fun c => c != '\n') with
    | nil => simp
    | cons d ds =>
      rw [hd] at h1
      simp only [List.drop_succ_cons, List.drop_zero, List.length_cons] at h1 ⊢
      omega

theorem linesLoop_fuel (fuel : Nat) : ∀ (fuel2 : Nat) (s : Text), s.length < fuel →
    s.length < fuel2 → linesLoop fuel s = linesLoop fuel2 s := by
  induction fuel with
  | zero => intro fuel2 s h; omega
  | succ n ih =>
    intro fuel2 s h h2
    cases fuel2 with
    | zero => omega
    | succ m =>
      simp only [linesLoop]
      cases hg : getline s with
      | none => rfl
      | some p =>
        obtain ⟨line, rest⟩ := p
        have := getline_length hg
        simp only
        rw [ih m rest (by omega) (by omega)]

theorem parseLoop_eq_routeLines (fuel : Nat) : ∀ (s : Text) (t : ShaderType) (ss : Buckets),
    s.length < fuel →
    parseLoop fuel s t ss =
      match routeLines (linesLoop fuel s) t ss with
      | .error f => .error f
      | .ok (_, b) => .ok { VertexSource := b.ss0, FragmentSource := b.ss1 } := by
  induction fuel with
  | zero => intro s t ss h; omega
  | succ n ih =>
    intro s t ss h
    simp only [parseLoop, linesLoop]
    cases hg : getline s with
    | none => simp [routeLines]
    | some p =>
      obtain ⟨line, rest⟩ := p
      have := getline_length hg
      simp only [routeLines]
      cases hp : parseStep t ss line with
      | error f => rfl
      | ok q =>
        obtain ⟨t1, ss1⟩ := q
        simp only
        exact ih rest t1 ss1 (by omega)

theorem parseShader_eq_routeLines (content : Text) :
    parseShader content =
      match routeLines (inputLines content) .NONE { ss0 := [], ss1 := [] } with
      | .error f => .error f
      | .ok (_, b) => .ok { VertexSource := b.ss0, FragmentSource := b.ss1 } :=
  parseLoop_eq_routeLines _ _ _ _ (Nat.lt_succ_self _)

theorem routeLines_append (l : List Text) : ∀ (a : Text) (t : ShaderType) (ss : Buckets),
    routeLines (l ++ [a]) t ss =
      match routeLines l t ss with
      | .error f => .error f
      | .ok (t1, ss1) => parseStep t1 ss1 a := by
  induction l with
  | nil =>
    intro a t ss
    simp only [List.nil_append, routeLines]
    cases parseStep t ss a with
    | error f => rfl
    | ok q => rfl
  | cons x xs ih =>
    intro a t ss
    simp only [List.cons_append, routeLines]
    cases parseStep t ss x with
    | error f => rfl
    | ok q => exact ih a q.1 q.2

/-! ## The routing rule -/

theorem recentStage_append_le (l : List Text) (a : Text) (i : Nat) (h : i ≤ l.length) :
    recentStage (l ++ [a]) i = recentStage l i := by
  simp only [recentStage, List.take_append_of_le_length h]

theorem recentStage_length (l : List Text) :
    recentStage l l.length = l.reverse.findSome? selects := by
  simp [recentStage]

theorem routedTo_append_lt (l : List Text) (a : Text) (t : ShaderType) (i : Nat)
    (h : i < l.length) : routedTo (l ++ [a]) t i = routedTo l t i := by
  simp only [routedTo, recentStage_append_le l a i (Nat.le_of_lt h), List.getD_append l [a] [] i h]

theorem routedTo_append_length (l : List Text) (a : Text) (t : ShaderType) :
    routedTo (l ++ [a]) t l.length = (!isMarker a && l.reverse.findSome? selects == some t) := by
  have h1 : recentStage (l ++ [a]) l.length = l.reverse.findSome? selects := by
    rw [recentStage_append_le l a l.length (Nat.le_refl _), recentStage_length]
  have h2 : (l ++ [a]).getD l.length [] = a := by
    simp [List.getD_eq_getElem?_getD]
  simp only [routedTo, h1, h2]

theorem specSource_append (l : List Text) (a : Text) (t : ShaderType) :
    specSource (l ++ [a]) t =
      specSource l t ++
        (if (!isMarker a && l.reverse.findSome? selects == some t) = true then a ++ ['\n'] else []) := by
  have hf : (List.range l.length).filter (routedTo (l ++ [a]) t)
      = (List.range l.length).filter (routedTo l t) :=
    List.filter_congr (fun i hi => routedTo_append_lt l a t i (List.mem_range.mp hi))
  have hm : ((List.range l.length).filter (routedTo l t)).map
        (fun i => (l ++ [a]).getD i [] ++ ['\n'])
      = ((List.range l.length).filter (routedTo l t)).map (fun i => l.getD i [] ++ ['\n']) := by
    apply List.map_congr_left
    intro i hi
    have hlt : i < l.length := List.mem_range.mp (List.mem_filter.mp hi).1
    simp only [List.getD_append l [a] [] i hlt]
  have hlast : (l ++ [a]).getD l.length [] = a := by
    simp [List.getD_eq_getElem?_getD]
  simp only [specSource, List.length_append, List.length_singleton, List.range_succ,
    List.filter_append, List.map_append, List.flatten_append, hf, hm]
  congr 1
  simp only [List.filter_cons, List.filter_nil, routedTo_append_length]
  split <;> simp [hlast]

theorem selects_stage {m : Text} {t : ShaderType} (h : selects m = some t) :
    t = .VERTEX ∨ t = .FRAGMENT := by
  unfold selects at h
  split at h
  · split at h
    · left; exact (Option.some.inj h).symm
    · split at h
      · right; exact (Option.some.inj h).symm
      · cases h
  · cases h

theorem findSome_selects_stage {l : List Text} {t : ShaderType}
    (h : l.findSome? selects = some t) : t = .VERTEX ∨ t = .FRAGMENT := by
  obtain ⟨m, _, hm⟩ := List.exists_of_findSome?_eq_some h
  exact selects_stage hm

theorem AllRouted.init {l : List Text} {a : Text} (h : AllRouted (l ++ [a])) : AllRouted l := by
  intro pre x post hl hx
  exact h pre x (post ++ [a]) (by simp [hl]) hx

theorem routeLines_spec (lines : List Text) : AllRouted lines →
    ∃ ss, routeLines lines .NONE { ss0 := [], ss1 := [] }
        = .ok ((lines.reverse.findSome? selects).getD .NONE, ss)
      ∧ ss.ss0 = specSource lines .VERTEX ∧ ss.ss1 = specSource lines .FRAGMENT := by
  induction lines using List.reverseRecOn with
  | nil =>
    intro _
    exact ⟨_, rfl, rfl, rfl⟩
  | append_singleton l a ih =>
    intro hall
    obtain ⟨ss, hrun, hv, hf⟩ := ih hall.init
    rw [routeLines_append, hrun]
    simp only [specSource_append, List.reverse_append, List.reverse_cons, List.reverse_nil,
      List.nil_append, List.singleton_append, List.findSome?_cons]
    by_cases hm : isMarker a = true
    · have hfound : found a kwShader = true := hm
      simp only [parseStep, hfound, if_true, selects, hm, Bool.not_true, Bool.false_and,
        Bool.false_eq_true, if_false, List.append_nil]
      by_cases h1 : found a kwVertex = true
      · simp only [h1, if_true]
        exact ⟨ss, rfl, hv, hf⟩
      · by_cases h2 : found a kwFragment = true
        · simp only [h1, h2, if_true, if_false]
          exact ⟨ss, rfl, hv, hf⟩
        · simp only [h1, h2, if_false]
          exact ⟨ss, rfl, hv, hf⟩
    · have hm2 : isMarker a = false := by simpa using hm
      have hfound : found a kwShader = false := hm2
      have hsome := hall l a [] rfl hm2
      obtain ⟨t, ht⟩ := Option.isSome_iff_exists.mp hsome
      simp only [parseStep, hfound, Bool.false_eq_true, if_false, selects, hm2, ht,
        Option.getD_some, Bool.not_false, Bool.true_and]
      rcases findSome_selects_stage ht with rfl | rfl
      · refine ⟨{ ss with ss0 := ss.ss0 ++ a ++ ['\n'] }, ?_, ?_, ?_⟩
        · simp [Buckets.write, ShaderType.toInt, Except.map]
        · simp [hv, List.append_assoc]
        · simp [hf]
      · refine ⟨{ ss with ss1 := ss.ss1 ++ a ++ ['\n'] }, ?_, ?_, ?_⟩
        · simp [Buckets.write, ShaderType.toInt, Except.map]
        · simp [hv]
        · simp [hf, List.append_assoc]

theorem wellStartedB_of_wellStarted (lines : List Text) :
    WellStarted lines → wellStartedB lines = true := by
  induction lines with
  | nil => intro _; rfl
  | cons l ls ih =>
    intro h
    by_cases hm : isMarker l = true
    · simp only [wellStartedB, hm, Bool.true_and, Bool.or_eq_true]
      by_cases hs : (selects l).isSome = true
      · exact Or.inl hs
      · right
        apply ih
        intro pre x post hl hpre hx
        obtain ⟨m, hmem, hsel⟩ := h (l :: pre) x post (by simp [hl])
          (by
            intro m hmem
            rcases List.mem_cons.mp hmem with rfl | h2
            · exact hm
            · exact hpre m h2) hx
        rcases List.mem_cons.mp hmem with rfl | h2
        · exact absurd hsel hs
        · exact ⟨m, h2, hsel⟩
    · have hm2 : isMarker l = false := by simpa using hm
      obtain ⟨m, hmem, _⟩ := h [] l ls rfl (by simp) hm2
      simp at hmem

theorem wellStarted_of_wellStartedB (lines : List Text) :
    wellStartedB lines = true → WellStarted lines := by
  induction lines with
  | nil =>
    intro _ pre l post hl
    simp at hl
  | cons l ls ih =>
    intro h pre x post hl hpre hx
    simp only [wellStartedB, Bool.and_eq_true, Bool.or_eq_true] at h
    cases pre with
    | nil =>
      simp only [List.nil_append, List.cons.injEq] at hl
      rw [← hl.1, h.1] at hx
      cases hx
    | cons p pre2 =>
      simp only [List.cons_append, List.cons.injEq] at hl
      obtain ⟨rfl, hls⟩ := hl
      rcases h.2 with hs | hrest
      · exact ⟨l, List.mem_cons_self _ _, hs⟩
      · obtain ⟨m, hmem, hsel⟩ := ih hrest pre2 x post hls
          (fun m hm => hpre m (List.mem_cons_of_mem _ hm)) hx
        exact ⟨m, List.mem_cons_of_mem _ hmem, hsel⟩

theorem allRouted_of_wellStartedB (lines : List Text) :
    wellStartedB lines = true → AllRouted lines := by
  induction lines with
  | nil =>
    intro _ pre x post hl
    simp at hl
  | cons l ls ih =>
    intro h pre x post hl hx
    simp only [wellStartedB, Bool.and_eq_true, Bool.or_eq_true] at h
    cases pre with
    | nil =>
      simp only [List.nil_append, List.cons.injEq] at hl
      rw [← hl.1, h.1] at hx
      cases hx
    | cons p pre2 =>
      simp only [List.cons_append, List.cons.injEq] at hl
      obtain ⟨rfl, hls⟩ := hl
      simp only [List.reverse_cons, List.findSome?_append, List.findSome?_cons,
        List.findSome?_nil]
      rcases h.2 with hs | hrest
      · obtain ⟨t, ht⟩ := Option.isSome_iff_exists.mp hs
        cases hrev : pre2.reverse.findSome? selects <;> simp [ht]
      · have := ih hrest pre2 x post hls hx
        obtain ⟨t, ht⟩ := Option.isSome_iff_exists.mp this
        simp [ht]

/-- C1: on every input whose first non-marker line is preceded by a stage-selecting marker,
`parseShader` returns, `VertexSource` is the concatenation in input order of (line, newline)
over the non-marker lines whose most recent stage-selecting marker selects vertex, and
`FragmentSource` the same over those whose most recent stage-selecting marker selects
fragment. -/
theorem parseShader_routes (content : Text) (h : WellStarted (inputLines content)) :
    parseShader content = .ok
      { VertexSource := specSource (inputLines content) .VERTEX
        FragmentSource := specSource (inputLines content) .FRAGMENT } := by
  obtain ⟨ss, hrun, hv, hf⟩ := routeLines_spec (inputLines content)
    (allRouted_of_wellStartedB _ (wellStartedB_of_wellStarted _ h))
  rw [parseShader_eq_routeLines, hrun, ← hv, ← hf]

theorem parseShader_routes_witness :
    WellStarted (inputLines "#shader vertex\nab\n#shader\nc\n#shader fragment\nd".toList) ∧
    parseShader "#shader vertex\nab\n#shader\nc\n#shader fragment\nd".toList = .ok
      { VertexSource := "ab\nc\n".toList, FragmentSource := "d\n".toList } :=
  ⟨wellStarted_of_wellStartedB _ (by decide),
   (parseShader_routes _ (wellStarted_of_wellStartedB _ (by decide))).trans (by decide)⟩

/-! ## Substring search -/

theorem startsWith_iff (pat : Text) : ∀ s : Text, startsWith pat s = true ↔ ∃ b, s = pat ++ b := by
  induction pat with
  | nil => intro s; simp [startsWith]
  | cons p ps ih =>
    intro s
    cases s with
    | nil => simp [startsWith]
    | cons c cs =>
      simp only [startsWith, Bool.and_eq_true, beq_iff_eq, ih cs, List.cons_append,
        List.cons.injEq]
      constructor
      · rintro ⟨rfl, b, rfl⟩
        exact ⟨b, rfl, rfl⟩
      · rintro ⟨b, rfl, rfl⟩
        exact ⟨rfl, b, rfl⟩

theorem findFrom_isSome (pat : Text) : ∀ (s : Text) (p q : Nat),
    (findFrom pat s p).isSome = (findFrom pat s q).isSome := by
  intro s
  induction s with
  | nil => intro p q; simp only [findFrom]; split <;> rfl
  | cons c cs ih =>
    intro p q
    simp only [findFrom]
    split
    · rfl
    · exact ih _ _

theorem found_nil (pat : Text) : found [] pat = startsWith pat [] := by
  simp only [found, find, findFrom]
  split <;> simp_all

theorem found_cons (pat : Text) (c : Char) (s : Text) :
    found (c :: s) pat = (startsWith pat (c :: s) || found s pat) := by
  simp only [found, find, findFrom]
  split
  · simp_all
  · rw [findFrom_isSome pat s (0 + 1) 0]
    simp_all

/-- The search `find` succeeds exactly on the texts that contain the pattern. -/
theorem found_iff_substring (pat : Text) : ∀ s : Text,
    found s pat = true ↔ ∃ a b, s = a ++ pat ++ b := by
  intro s
  induction s with
  | nil =>
    rw [found_nil, startsWith_iff]
    constructor
    · rintro ⟨b, hb⟩
      exact ⟨[], b, by simpa using hb⟩
    · rintro ⟨a, b, hab⟩
      have h1 : a = [] := by
        cases a with
        | nil => rfl
        | cons x xs => simp at hab
      subst h1
      exact ⟨b, by simpa using hab⟩
  | cons c cs ih =>
    rw [found_cons, Bool.or_eq_true, startsWith_iff, ih]
    constructor
    · rintro (⟨b, hb⟩ | ⟨a, b, hab⟩)
      · exact ⟨[], b, by simpa using hb⟩
      · exact ⟨c :: a, b, by simp [hab]⟩
    · rintro ⟨a, b, hab⟩
      cases a with
      | nil => exact Or.inl ⟨b, by simpa using hab⟩
      | cons x xs =>
        simp only [List.cons_append, List.cons.injEq] at hab
        exact Or.inr ⟨xs, b, by simp [hab.2]⟩

theorem startsWith_append_newline (pat : Text) (hp : '\n' ∉ pat) : ∀ (s rest : Text),
    startsWith pat (s ++ '\n' :: rest) = startsWith pat s := by
  induction pat with
  | nil => intro s rest; simp [startsWith]
  | cons p ps ih =>
    intro s rest
    have hne : p ≠ '\n' := fun h => hp (by simp [h])
    have hps : '\n' ∉ ps := fun h => hp (List.mem_cons_of_mem _ h)
    cases s with
    | nil => simp [startsWith, hne]
    | cons c cs =>
      have h := ih hps cs rest
      simp only [List.cons_append, startsWith]
      rw [← h]
      rfl

theorem found_append_newline (pat : Text) (hp : '\n' ∉ pat) (l rest : Text) :
    found (l ++ '\n' :: rest) pat = (found l pat || found rest pat) := by
  induction l with
  | nil =>
    rw [List.nil_append, found_cons, found_nil]
    have := startsWith_append_newline pat hp [] rest
    simp only [List.nil_append] at this
    rw [this]
  | cons c cs ih =>
    rw [List.cons_append, found_cons, found_cons, ih, Bool.or_assoc]
    have := startsWith_append_newline pat hp (c :: cs) rest
    simp only [List.cons_append] at this
    rw [this]

theorem unlines_cons (l : Text) (ls : List Text) : unlines (l :: ls) = l ++ '\n' :: unlines ls := by
  simp [unlines]

theorem unlines_append (l1 l2 : List Text) : unlines (l1 ++ l2) = unlines l1 ++ unlines l2 := by
  simp [unlines]

theorem found_unlines (pat : Text) (hp : '\n' ∉ pat) (hn : found [] pat = false) :
    ∀ ls : List Text, (∀ l ∈ ls, found l pat = false) → found (unlines ls) pat = false := by
  intro ls
  induction ls with
  | nil => intro _; exact hn
  | cons l ls ih =>
    intro h
    rw [unlines_cons, found_append_newline pat hp, h l (List.mem_cons_self _ _),
      ih (fun m hm => h m (List.mem_cons_of_mem _ hm))]
    rfl

theorem unlines_ends (ls : List Text) : endsWithNewlineOrEmpty (unlines ls) := by
  induction ls using List.reverseRecOn with
  | nil => exact Or.inl rfl
  | append_singleton l a _ =>
    right
    rw [unlines_append, unlines_cons]
    simp [unlines, List.getLast?_append]

/-! ## What the buckets hold -/

theorem Unmarked.push {s line : Text} (hs : Unmarked s) (hl : found line kwShader = false) :
    Unmarked (s ++ line ++ ['\n']) := by
  obtain ⟨ls, rfl, h⟩ := hs
  refine ⟨ls ++ [line], ?_, ?_⟩
  · rw [unlines_append, unlines_cons]
    simp [unlines, List.append_assoc]
  · intro l hmem
    rcases List.mem_append.mp hmem with h1 | h1
    · exact h l h1
    · rw [List.mem_singleton.mp h1]; exact hl

theorem Unmarked.found {s : Text} (hs : Unmarked s) : found s kwShader = false := by
  obtain ⟨ls, rfl, h⟩ := hs
  exact found_unlines kwShader (by decide) (by decide) ls h

theorem Unmarked.ends {s : Text} (hs : Unmarked s) : endsWithNewlineOrEmpty s := by
  obtain ⟨ls, rfl, _⟩ := hs
  exact unlines_ends ls

theorem parseStep_unmarked {t t1 : ShaderType} {ss ss1 : Buckets} {line : Text}
    (h : parseStep t ss line = .ok (t1, ss1)) (h0 : Unmarked ss.ss0) (h1 : Unmarked ss.ss1) :
    Unmarked ss1.ss0 ∧ Unmarked ss1.ss1 := by
  unfold parseStep at h
  split at h
  · split at h
    · cases h; exact ⟨h0, h1⟩
    · split at h
      · cases h; exact ⟨h0, h1⟩
      · cases h; exact ⟨h0, h1⟩
  · rename_i hm
    have hm2 : found line kwShader = false := by simpa using hm
    unfold Buckets.write at h
    split at h
    · simp only [Except.map, Except.ok.injEq, Prod.mk.injEq] at h
      rw [← h.2]
      exact ⟨h0.push hm2, h1⟩
    · split at h
      · simp only [Except.map, Except.ok.injEq, Prod.mk.injEq] at h
        rw [← h.2]
        exact ⟨h0, h1.push hm2⟩
      · simp [Except.map] at h

theorem parseStep_fault {t : ShaderType} {ss : Buckets} {line : Text} {f : Fault}
    (h : parseStep t ss line = .error f) : f = .outOfBounds (-1) := by
  unfold parseStep at h
  split at h
  · split at h
    · cases h
    · split at h <;> cases h
  · cases t <;> simp [Buckets.write, ShaderType.toInt, Except.map] at h
    exact h.symm

theorem routeLines_unmarked (ls : List Text) : ∀ (t t1 : ShaderType) (ss ss1 : Buckets),
    routeLines ls t ss = .ok (t1, ss1) → Unmarked ss.ss0 → Unmarked ss.ss1 →
    Unmarked ss1.ss0 ∧ Unmarked ss1.ss1 := by
  induction ls with
  | nil =>
    intro t t1 ss ss1 h h0 h1
    simp only [routeLines, Except.ok.injEq, Prod.mk.injEq] at h
    rw [← h.2]
    exact ⟨h0, h1⟩
  | cons l ls ih =>
    intro t t1 ss ss1 h h0 h1
    simp only [routeLines] at h
    cases hp : parseStep t ss l with
    | error f => rw [hp] at h; cases h
    | ok q =>
      rw [hp] at h
      obtain ⟨h2, h3⟩ := parseStep_unmarked hp h0 h1
      exact ih q.1 t1 q.2 ss1 h h2 h3

theorem routeLines_fault (ls : List Text) : ∀ (t : ShaderType) (ss : Buckets) (f : Fault),
    routeLines ls t ss = .error f → f = .outOfBounds (-1) := by
  induction ls with
  | nil => intro t ss f h; cases h
  | cons l ls ih =>
    intro t ss f h
    simp only [routeLines] at h
    cases hp : parseStep t ss l with
    | error g =>
      rw [hp] at h
      cases h
      exact parseStep_fault hp
    | ok q =>
      rw [hp] at h
      exact ih q.1 q.2 f h

/-- C10: on every input `parseShader` either returns two texts neither of which contains
`#shader` and each of which is empty or ends with a newline, or it stops at the write
through bucket index -1; it never runs out of fuel. -/
theorem parseShader_drops_markers (content : Text) :
    match parseShader content with
    | .ok r =>
      found r.VertexSource kwShader = false ∧ found r.FragmentSource kwShader = false ∧
      endsWithNewlineOrEmpty r.VertexSource ∧ endsWithNewlineOrEmpty r.FragmentSource
    | .error f => f = .outOfBounds (-1) := by
  rw [parseShader_eq_routeLines]
  cases hr : routeLines (inputLines content) .NONE { ss0 := [], ss1 := [] } with
  | error f => exact routeLines_fault _ _ _ _ hr
  | ok q =>
    have hnil : Unmarked [] := ⟨[], rfl, by simp⟩
    obtain ⟨h0, h1⟩ := routeLines_unmarked _ _ _ _ _ hr hnil hnil
    exact ⟨h0.found, h1.found, h0.ends, h1.ends⟩

/-! ## Round trip -/

theorem takeWhile_newline (l rest : Text) (h : '\n' ∉ l) :
    (l ++ '\n' :: rest).takeWhile (fun c => c != '\n') = l := by
  induction l with
  | nil => simp
  | cons c cs ih =>
    have hc : c ≠ '\n' := fun e => h (by simp [e])
    have hcs : '\n' ∉ cs := fun e => h (List.mem_cons_of_mem _ e)
    simp [List.takeWhile_cons, hc, ih hcs]

theorem dropWhile_newline (l rest : Text) (h : '\n' ∉ l) :
    (l ++ '\n' :: rest).dropWhile (fun c => c != '\n') = '\n' :: rest := by
  induction l with
  | nil => simp
  | cons c cs ih =>
    have hc : c ≠ '\n' := fun e => h (by simp [e])
    have hcs : '\n' ∉ cs := fun e => h (List.mem_cons_of_mem _ e)
    simp [List.dropWhile_cons, hc, ih hcs]

theorem getline_line (l rest : Text) (h : '\n' ∉ l) :
    getline (l ++ '\n' :: rest) = some (l, rest) := by
  have h1 := takeWhile_newline l rest h
  have h2 := dropWhile_newline l rest h
  cases hs : l ++ '\n' :: rest with
  | nil => simp at hs
  | cons c cs =>
    rw [hs] at h1 h2
    simp only [getline, h1, h2, List.drop_succ_cons, List.drop_zero]

theorem linesLoop_unlines (ls : List Text) : ∀ fuel : Nat, (∀ l ∈ ls, '\n' ∉ l) →
    (unlines ls).length < fuel → linesLoop fuel (unlines ls) = ls := by
  induction ls with
  | nil =>
    intro fuel _ hfuel
    cases fuel with
    | zero => omega
    | succ n => rfl
  | cons l ls ih =>
    intro fuel h hfuel
    cases fuel with
    | zero => omega
    | succ n =>
      rw [unlines_cons] at hfuel ⊢
      simp only [linesLoop, getline_line l (unlines ls) (h l (List.mem_cons_self _ _))]
      rw [ih n (fun m hm => h m (List.mem_cons_of_mem _ hm))
        (by simp only [List.length_append, List.length_cons] at hfuel; omega)]

/-- Every sequence of newline-free lines is the sequence of lines of a file. -/
theorem inputLines_unlines (ls : List Text) (h : ∀ l ∈ ls, '\n' ∉ l) :
    inputLines (unlines ls) = ls :=
  linesLoop_unlines ls _ h (Nat.lt_succ_self _)

theorem routeLines_plain (ls : List Text) (h : ∀ l ∈ ls, found l kwShader = false) :
    ∀ ss : Buckets,
      routeLines ls .VERTEX ss = .ok (.VERTEX, { ss with ss0 := ss.ss0 ++ unlines ls }) ∧
      routeLines ls .FRAGMENT ss = .ok (.FRAGMENT, { ss with ss1 := ss.ss1 ++ unlines ls }) := by
  induction ls with
  | nil => intro ss; simp [routeLines, unlines]
  | cons l ls ih =>
    intro ss
    have hl := h l (List.mem_cons_self _ _)
    have ih2 := ih (fun m hm => h m (List.mem_cons_of_mem _ hm))
    constructor
    · simp only [routeLines, parseStep, hl, Bool.false_eq_true, if_false, Buckets.write,
        ShaderType.toInt, if_true, Except.map]
      rw [(ih2 _).1, unlines_cons]
      simp [List.append_assoc]
    · simp only [routeLines, parseStep, hl, Bool.false_eq_true, if_false, Buckets.write,
        ShaderType.toInt, Except.map, if_true]
      rw [if_neg (by decide)]
      simp only
      rw [(ih2 _).2, unlines_cons]
      simp [List.append_assoc]

theorem routeLines_concat (l1 : List Text) : ∀ (l2 : List Text) (t : ShaderType) (ss : Buckets),
    routeLines (l1 ++ l2) t ss =
      match routeLines l1 t ss with
      | .error f => .error f
      | .ok (t1, ss1) => routeLines l2 t1 ss1 := by
  induction l1 with
  | nil => intro l2 t ss; rfl
  | cons x xs ih =>
    intro l2 t ss
    simp only [List.cons_append, routeLines]
    cases parseStep t ss x with
    | error f => rfl
    | ok q => exact ih l2 q.1 q.2

theorem parseShader_blocks (m1 m2 : Text) (b1 b2 : List Text) (t1 t2 : ShaderType)
    (ss1 ss2 : Buckets)
    (hm1 : '\n' ∉ m1) (hm2 : '\n' ∉ m2)
    (hb1 : ∀ l ∈ b1, '\n' ∉ l) (hb2 : ∀ l ∈ b2, '\n' ∉ l)
    (hs1 : ∀ ss, parseStep .NONE ss m1 = .ok (t1, ss))
    (hs2 : ∀ t ss, parseStep t ss m2 = .ok (t2, ss))
    (hr1 : routeLines b1 t1 { ss0 := [], ss1 := [] } = .ok (t1, ss1))
    (hr2 : routeLines b2 t2 ss1 = .ok (t2, ss2)) :
    parseShader (m1 ++ ['\n'] ++ unlines b1 ++ (m2 ++ ['\n']) ++ unlines b2)
      = .ok { VertexSource := ss2.ss0, FragmentSource := ss2.ss1 } := by
  have hcontent : m1 ++ ['\n'] ++ unlines b1 ++ (m2 ++ ['\n']) ++ unlines b2
      = unlines (m1 :: (b1 ++ m2 :: b2)) := by
    simp [unlines_cons, unlines_append, List.append_assoc]
  have hfree : ∀ l ∈ m1 :: (b1 ++ m2 :: b2), '\n' ∉ l := by
    intro l hl
    rcases List.mem_cons.mp hl with rfl | hl
    · exact hm1
    · rcases List.mem_append.mp hl with hl | hl
      · exact hb1 l hl
      · rcases List.mem_cons.mp hl with rfl | hl
        · exact hm2
        · exact hb2 l hl
  rw [hcontent, parseShader_eq_routeLines, inputLines_unlines _ hfree]
  simp only [routeLines, hs1, routeLines_concat, hr1, hs2, hr2]

theorem parseStep_vertexMarker (t : ShaderType) (ss : Buckets) :
    parseStep t ss vertexMarker = .ok (.VERTEX, ss) := by
  have h1 : found vertexMarker kwShader = true := by decide
  have h2 : found vertexMarker kwVertex = true := by decide
  simp [parseStep, h1, h2]

theorem parseStep_fragmentMarker (t : ShaderType) (ss : Buckets) :
    parseStep t ss fragmentMarker = .ok (.FRAGMENT, ss) := by
  have h1 : found fragmentMarker kwShader = true := by decide
  have h2 : found fragmentMarker kwVertex = false := by decide
  have h3 : found fragmentMarker kwFragment = true := by decide
  simp [parseStep, h1, h2, h3]

/-- C9: for texts `V` and `F` made of newline-terminated lines none of which contains
`#shader`, parsing `#shader vertex` newline `V` `#shader fragment` newline `F` returns
`VertexSource = V` and `FragmentSource = F`, and so does parsing the two blocks in the
opposite order. -/
theorem parseShader_roundtrip (vs fs : List Text)
    (hv : ∀ l ∈ vs, '\n' ∉ l ∧ found l kwShader = false)
    (hf : ∀ l ∈ fs, '\n' ∉ l ∧ found l kwShader = false) :
    parseShader (vertexMarker ++ ['\n'] ++ unlines vs ++ (fragmentMarker ++ ['\n']) ++ unlines fs)
      = .ok { VertexSource := unlines vs, FragmentSource := unlines fs } ∧
    parseShader (fragmentMarker ++ ['\n'] ++ unlines fs ++ (vertexMarker ++ ['\n']) ++ unlines vs)
      = .ok { VertexSource := unlines vs, FragmentSource := unlines fs } := by
  have hv1 : ∀ l ∈ vs, '\n' ∉ l := fun l hl => (hv l hl).1
  have hv2 : ∀ l ∈ vs, found l kwShader = false := fun l hl => (hv l hl).2
  have hf1 : ∀ l ∈ fs, '\n' ∉ l := fun l hl => (hf l hl).1
  have hf2 : ∀ l ∈ fs, found l kwShader = false := fun l hl => (hf l hl).2
  constructor
  · have h := parseShader_blocks vertexMarker fragmentMarker vs fs .VERTEX .FRAGMENT
      { ss0 := [] ++ unlines vs, ss1 := [] }
      { ss0 := [] ++ unlines vs, ss1 := [] ++ unlines fs }
      (by decide) (by decide) hv1 hf1
      (fun ss => parseStep_vertexMarker _ ss) (fun t ss => parseStep_fragmentMarker t ss)
      ((routeLines_plain vs hv2 _).1) ((routeLines_plain fs hf2 _).2)
    simpa using h
  · have h := parseShader_blocks fragmentMarker vertexMarker fs vs .FRAGMENT .VERTEX
      { ss0 := [], ss1 := [] ++ unlines fs }
      { ss0 := [] ++ unlines vs, ss1 := [] ++ unlines fs }
      (by decide) (by decide) hf1 hv1
      (fun ss => parseStep_fragmentMarker _ ss) (fun t ss => parseStep_vertexMarker t ss)
      ((routeLines_plain fs hf2 _).2) ((routeLines_plain vs hv2 _).1)
    simpa using h

theorem parseShader_roundtrip_witness :
    (∀ l ∈ ["void main()".toList, [], "// v".toList], '\n' ∉ l ∧ found l kwShader = false) ∧
    (∀ l ∈ ["#version 330 core".toList], '\n' ∉ l ∧ found l kwShader = false) ∧
    parseShader (vertexMarker ++ ['\n'] ++ unlines ["void main()".toList, [], "// v".toList]
        ++ (fragmentMarker ++ ['\n']) ++ unlines ["#version 330 core".toList])
      = .ok { VertexSource := "void main()\n\n// v\n".toList
              FragmentSource := "#version 330 core\n".toList } ∧
    parseShader (fragmentMarker ++ ['\n'] ++ unlines ["#version 330 core".toList]
        ++ (vertexMarker ++ ['\n']) ++ unlines ["void main()".toList, [], "// v".toList])
      = .ok { VertexSource := "void main()\n\n// v\n".toList
              FragmentSource := "#version 330 core\n".toList } :=
  ⟨by decide, by decide,
   parseShader_roundtrip ["void main()".toList, [], "// v".toList] ["#version 330 core".toList]
    (by decide) (by decide)⟩

/-- C2, on the code: when the first line of the file is not a marker line the loop writes
through bucket index -1, which is outside the two-element array. -/
theorem parseShader_leading_text_fault :
    parseShader "// basic\n#shader vertex\nv\n#shader fragment\nf\n".toList
      = .error (.outOfBounds (-1)) ∧
    parseShader "#shader vertex\nv\n#shader fragment\nf\n".toList
      = .ok { VertexSource := "v\n".toList, FragmentSource := "f\n".toList } := by
  decide

/-! ## The error check -/

theorem glClearErrorLoop_drains (errs : List GLError) : ∀ (fuel : Nat) (calls : List Call),
    errs.length < fuel →
    glClearErrorLoop fuel { calls := calls, errors := errs }
      = some { calls := calls ++ List.replicate (errs.length + 1) .glGetError, errors := [] } := by
  induction errs with
  | nil =>
    intro fuel calls h
    cases fuel with
    | zero => omega
    | succ n => simp [glClearErrorLoop, glGetError, World.log, GL_NO_ERROR]
  | cons e es ih =>
    intro fuel calls h
    cases fuel with
    | zero => omega
    | succ n =>
      have hne : (e.code != GL_NO_ERROR) = true := by simpa using e.nonzero
      simp only [glClearErrorLoop, glGetError, hne, if_true]
      rw [ih n _ (by simpa using h)]
      simp [List.replicate_succ, List.append_assoc]

theorem glClearError_drains (w : World) :
    glClearError w
      = some (drained w) :=
  glClearErrorLoop_drains w.errors _ w.calls (Nat.lt_succ_self _)

theorem glLogCall_fst (function file : String) (line : Nat) (v : World) :
    (glLogCall function file line v).1 = decide (v.errors = []) := by
  cases hv : v.errors with
  | nil => simp [glLogCall, glGetError, hv, GL_NO_ERROR]
  | cons e es =>
    have hne : e.code ≠ 0 := e.nonzero
    simp [glLogCall, glGetError, hv, hne]

theorem glLogCall_calls (function file : String) (line : Nat) (v : World) :
    (glLogCall function file line v).2.calls = v.calls ++ .glGetError ::
      (match v.errors with
       | [] => []
       | e :: _ => [.cerr ("[OpenGL Error] (" ++ toString e.code ++ "): " ++ function ++ " "
          ++ file ++ ":" ++ toString line ++ "\n")]) := by
  cases hv : v.errors with
  | nil => simp [glLogCall, glGetError, hv, GL_NO_ERROR, World.log]
  | cons e es =>
    have hne : e.code ≠ 0 := e.nonzero
    simp [glLogCall, glGetError, hv, hne, World.log]

theorem glLogCall_errors (function file : String) (line : Nat) (v : World) :
    (glLogCall function file line v).2.errors = v.errors.tail := by
  cases hv : v.errors with
  | nil => simp [glLogCall, glGetError, hv, GL_NO_ERROR, World.log]
  | cons e es =>
    have hne : e.code ≠ 0 := e.nonzero
    simp [glLogCall, glGetError, hv, hne, World.log]

theorem GLCALL_eq (function file : String) (line : Nat) (x : World → World) (w : World) :
    GLCALL function file line x w =
      some (let r := glLogCall function file line (x (drained w))
            if r.1 = true then (false, r.2) else (true, r.2.log (.raise SIGTRAP))) := by
  simp only [GLCALL, glClearError_drains]
  cases h : (glLogCall function file line (x (drained w))).1 <;> simp [h]

/-- C3: for every pending error queue and every wrapped call, `glClearError` ends with the
queue empty (after one fetch per pending error and one more), the call then runs, and the
trap signal is raised exactly when an error is pending after the call; `glLogCall` returns
false exactly when the queue is non-empty and true exactly when it is empty; a wrapped
call that raises no error causes no trap, whatever was pending before. -/
theorem GLCALL_traps_iff_error_after_call (function file : String) (line : Nat)
    (x : World → World) (w : World) :
    ∃ w1 : World,
      glClearError w = some w1 ∧ w1.errors = [] ∧
      w1.calls = w.calls ++ List.replicate (w.errors.length + 1) .glGetError ∧
      (∃ trap w3, GLCALL function file line x w = some (trap, w3) ∧
        (trap = true ↔ (x w1).errors ≠ []) ∧
        (Call.raise SIGTRAP ∈ w3.calls.drop (x w1).calls.length ↔ (x w1).errors ≠ []) ∧
        ((x w1).errors = w1.errors → trap = false)) ∧
      (∀ v : World,
        ((glLogCall function file line v).1 = false ↔ v.errors ≠ []) ∧
        ((glLogCall function file line v).1 = true ↔ v.errors = [])) := by
  refine ⟨drained w, glClearError_drains w, rfl, rfl, ?_, ?_⟩
  · rw [GLCALL_eq]
    have hfst := glLogCall_fst function file line (x (drained w))
    have hcalls := glLogCall_calls function file line (x (drained w))
    cases hx : (x (drained w)).errors with
    | nil =>
      rw [hx] at hfst hcalls
      simp only [decide_True] at hfst
      refine ⟨false, (glLogCall function file line (x (drained w))).2, by simp [hfst], by simp,
        ?_, ?_⟩
      · simp [hcalls]
      · intro _; rfl
    | cons e es =>
      rw [hx] at hfst hcalls
      simp only [reduceCtorEq, decide_False] at hfst
      refine ⟨true, (glLogCall function file line (x (drained w))).2.log (.raise SIGTRAP),
        by simp [hfst], by simp, ?_, ?_⟩
      · simp [World.log, hcalls]
      · intro h
        cases h
  · intro v
    rw [glLogCall_fst]
    constructor <;> simp

/-! ## Start-up failures -/

/-- C5: if `glfwInit` fails `main` returns -1 having made no other call; if the window
cannot be created it calls `glfwTerminate` and returns -1; if `glewInit` fails it prints
and aborts; and in each case no call of GPU work or of the render loop is made. -/
theorem main_startup_failure (env : Env) :
    (env.glfwInitOk = false →
      (main env).1 = .returned (-1) ∧ (main env).2.calls = [.glfwInit]) ∧
    (env.glfwInitOk = true → env.windowOk = false →
      (main env).1 = .returned (-1) ∧
      (main env).2.calls = [.glfwInit, .glfwCreateWindow 640 480 "Hello World", .glfwTerminate]) ∧
    (env.glfwInitOk = true → env.windowOk = true → env.glewOk = false →
      (main env).1 = .aborted ∧
      (main env).2.calls = [.glfwInit, .glfwCreateWindow 640 480 "Hello World",
        .glfwMakeContextCurrent, .glewInit, .cerr "Error: Glew failed to initialize!\n", .abort]) ∧
    ((env.glfwInitOk = false ∨ env.windowOk = false ∨ env.glewOk = false) →
      ∀ c ∈ (main env).2.calls, isGpuWork c = false) := by
  have a1 : env.glfwInitOk = false →
      (main env).1 = .returned (-1) ∧ (main env).2.calls = [.glfwInit] := by
    intro h
    simp [main, h, call]
  have a2 : env.glfwInitOk = true → env.windowOk = false →
      (main env).1 = .returned (-1) ∧
      (main env).2.calls = [.glfwInit, .glfwCreateWindow 640 480 "Hello World", .glfwTerminate] := by
    intro h1 h2
    simp [main, h1, h2, call]
  have a3 : env.glfwInitOk = true → env.windowOk = true → env.glewOk = false →
      (main env).1 = .aborted ∧
      (main env).2.calls = [.glfwInit, .glfwCreateWindow 640 480 "Hello World",
        .glfwMakeContextCurrent, .glewInit, .cerr "Error: Glew failed to initialize!\n", .abort] := by
    intro h1 h2 h3
    simp [main, h1, h2, h3, call, World.log]
  refine ⟨a1, a2, a3, ?_⟩
  intro h c hc
  cases h1 : env.glfwInitOk with
  | false =>
    rw [(a1 h1).2] at hc
    simp only [List.mem_singleton] at hc
    subst hc; rfl
  | true =>
    cases h2 : env.windowOk with
    | false =>
      rw [(a2 h1 h2).2] at hc
      simp only [List.mem_cons, List.mem_singleton, List.not_mem_nil, or_false] at hc
      rcases hc with rfl | rfl | rfl <;> rfl
    | true =>
      have h3 : env.glewOk = false := by
        rcases h with h | h | h
        · rw [h1] at h; cases h
        · rw [h2] at h; cases h
        · exact h
      rw [(a3 h1 h2 h3).2] at hc
      simp only [List.mem_cons, List.mem_singleton, List.not_mem_nil, or_false] at hc
      rcases hc with rfl | rfl | rfl | rfl | rfl | rfl <;> rfl

theorem main_startup_failure_witness :
    ((main envNoGlfw).1 = .returned (-1) ∧ (main envNoGlfw).2.calls = [.glfwInit]) ∧
    ((main envNoWindow).1 = .returned (-1) ∧
      (main envNoWindow).2.calls
        = [.glfwInit, .glfwCreateWindow 640 480 "Hello World", .glfwTerminate]) ∧
    ((main envNoGlew).1 = .aborted ∧
      (main envNoGlew).2.calls = [.glfwInit, .glfwCreateWindow 640 480 "Hello World",
        .glfwMakeContextCurrent, .glewInit, .cerr "Error: Glew failed to initialize!\n", .abort]) ∧
    (∀ c ∈ (main envNoGlew).2.calls, isGpuWork c = false) :=
  ⟨(main_startup_failure envNoGlfw).1 rfl,
   (main_startup_failure envNoWindow).2.1 rfl rfl,
   (main_startup_failure envNoGlew).2.2.1 rfl rfl rfl,
   (main_startup_failure envNoGlew).2.2.2 (Or.inr (Or.inr rfl))⟩

/-! ## The geometry -/

/-- C6, on the code: both `glBufferData` calls of a run pass 48 as the byte count, while
the `positions` array is 32 bytes and the `indices` array is 24 bytes. -/
theorem upload_sizes_exceed_arrays :
    Call.glBufferData GL_ARRAY_BUFFER 48 positions GL_STATIC_DRAW ∈ (main sampleEnv).2.calls ∧
    Call.glBufferData GL_ELEMENT_ARRAY_BUFFER 48 indices GL_STATIC_DRAW ∈ (main sampleEnv).2.calls ∧
    vertexUploadSize = 48 ∧ positions.length * sizeofFloat = 32 ∧
    indexUploadSize = 48 ∧ indices.length * sizeofUnsignedInt = 24 := by
  decide

/-- C7: `indices` has 6 entries, the count the draw call passes; every entry is below 4,
the number of vertices in `positions` at 2 components and 8 bytes per vertex; each of the
two consecutive triples has three distinct entries; and each of the 4 vertices occurs. -/
theorem indices_form_two_triangles :
    indices.length = 6 ∧
    (∀ (env : Env) (w : World), (drawElements env w).calls
      = w.calls ++ [.glDrawElements GL_TRIANGLES indices.length GL_UNSIGNED_INT 0]) ∧
    positions.length / attribComponents = 4 ∧
    attribComponents = 2 ∧ attribStride = 8 ∧
    (∀ i ∈ indices, i < positions.length / attribComponents) ∧
    (indices.take 3).Nodup ∧ (indices.drop 3).Nodup ∧
    (indices.take 3).length = 3 ∧ (indices.drop 3).length = 3 ∧
    (∀ v, v < positions.length / attribComponents → v ∈ indices) := by
  refine ⟨rfl, fun _ _ => rfl, rfl, rfl, rfl, by decide, by decide, by decide, rfl, rfl, by decide⟩

/-! ## Shader compilation and linking -/

@[simp] theorem call_calls (env : Env) (c : Call) (w : World) :
    (call env c w).calls = w.calls ++ [c] := rfl

@[simp] theorem log_calls (c : Call) (w : World) : (w.log c).calls = w.calls ++ [c] := rfl

theorem compileShader_fst (env : Env) (type : GLenum) (source : Text) (w : World) :
    (compileShader env type source w).1 = compiledId env type source := by
  cases h : env.compileOk type source <;> simp [compileShader, compiledId, h, GL_TRUE, GL_FALSE]

theorem compileShader_calls (env : Env) (type : GLenum) (source : Text) (w : World) :
    (compileShader env type source w).2.calls = w.calls ++ compileCalls env type source := by
  cases h : env.compileOk type source <;>
    simp [compileShader, compileCalls, h, GL_TRUE, GL_FALSE]

theorem createShader_fst (env : Env) (vertexShader fragmentShader : Text) (w : World) :
    (createShader env vertexShader fragmentShader w).1 = env.program := rfl

theorem createShader_calls (env : Env) (vertexShader fragmentShader : Text) (w : World) :
    (createShader env vertexShader fragmentShader w).2.calls
      = w.calls ++ createCalls env vertexShader fragmentShader := by
  simp [createShader, createCalls, compileShader_fst, compileShader_calls, List.append_assoc]

/-! ## The run of `main` -/

theorem worldAtLoop_calls (env : Env) (source : ShaderProgramSource) :
    (worldAtLoop env source).calls
      = initCalls ++ loaderCalls env ++ uploadCalls env ++ shaderCalls env source := by
  simp [worldAtLoop, createShader_calls, initCalls, loaderCalls, uploadCalls, shaderCalls]

theorem main_after_setup (env : Env) (source : ShaderProgramSource)
    (h1 : env.glfwInitOk = true) (h2 : env.windowOk = true) (h3 : env.glewOk = true)
    (h4 : parseShader env.shaderFile = .ok source) :
    main env =
      match renderLoop env env.frames (worldAtLoop env source) with
      | (some outcome, w1) => (outcome, w1)
      | (none, w1) =>
        (.returned 0, call env .glfwTerminate (call env (.glDeleteProgram env.program) w1)) := by
  simp only [main, h1, h2, h3, h4, Bool.not_true, Bool.false_eq_true, if_false]
  rfl

theorem renderLoop_extends (env : Env) : ∀ (n : Nat) (w : World),
    ∃ post, (renderLoop env n w).2.calls = w.calls ++ .glfwWindowShouldClose :: post := by
  intro n
  induction n with
  | zero => intro w; exact ⟨[], rfl⟩
  | succ n ih =>
    intro w
    simp only [renderLoop, GLCALL_eq]
    split
    · rename_i h; cases h
    · rename_i w3 h
      simp only [Option.some.injEq] at h
      split at h
      · cases h
      · simp only [Prod.mk.injEq, true_and] at h
        rw [← h]
        simp only [log_calls, glLogCall_calls, drawElements, call_calls, drained,
          List.append_assoc, List.cons_append, List.nil_append]
        exact ⟨_, rfl⟩
    · rename_i w3 h
      simp only [Option.some.injEq] at h
      split at h
      · simp only [Prod.mk.injEq, true_and] at h
        obtain ⟨post, hp⟩ := ih (call env .glfwPollEvents (call env .glfwSwapBuffers w3))
        rw [hp, ← h]
        simp only [call_calls, glLogCall_calls, drawElements, drained,
          List.append_assoc, List.cons_append, List.nil_append]
        exact ⟨_, rfl⟩
      · cases h

theorem renderLoop_linkOk (env : Env) (b : Bool) : ∀ (n : Nat) (w : World),
    renderLoop { env with linkOk := b } n w = renderLoop env n w := by
  intro n
  induction n with
  | zero => intro w; rfl
  | succ n ih =>
    intro w
    have hd : drawElements { env with linkOk := b } = drawElements env := rfl
    have hc : ∀ c v, call { env with linkOk := b } c v = call env c v := fun _ _ => rfl
    simp only [renderLoop, hd, hc, ih]

theorem main_linkOk (env : Env) (b : Bool) : main { env with linkOk := b } = main env := by
  simp only [main, renderLoop_linkOk]
  rfl

/-- C4, as amended: `compileShader` returns 0 when the compile status is false, having
printed the stage's info log and deleted the shader object, and otherwise returns the
created shader id, so that for a non-zero created id it returns 0 exactly when the compile
status is false; `createShader` returns the id obtained from `glCreateProgram`; when
start-up and parsing succeed `main` passes that id to `glUseProgram` and goes on to the
first test of the render loop, whatever the compile outcomes; and the run does not depend
on whether the program links. -/
theorem shader_failure_continues (env : Env) (type : GLenum)
    (source vertexShader fragmentShader : Text) (w : World) :
    ((compileShader env type source w).1
      = if env.compileOk type source = true then env.shaderId type else 0) ∧
    (env.compileOk type source = false →
      (compileShader env type source w).2.calls = w.calls ++
        [.glCreateShader type, .glShaderSource (env.shaderId type) 1 source,
         .glCompileShader (env.shaderId type),
         .glGetShaderiv (env.shaderId type) GL_COMPILE_STATUS,
         .glGetShaderiv (env.shaderId type) GL_INFO_LOG_LENGTH,
         .glGetShaderInfoLog (env.shaderId type) ((env.infoLog type source).length + 1),
         .cout ("Failed to compile "
           ++ (if type == GL_VERTEX_SHADER then "vertex" else "fragment")
           ++ " shader!\n" ++ env.infoLog type source ++ "\n"),
         .glDeleteShader (env.shaderId type)]) ∧
    (env.compileOk type source = true →
      (compileShader env type source w).2.calls = w.calls ++
        [.glCreateShader type, .glShaderSource (env.shaderId type) 1 source,
         .glCompileShader (env.shaderId type),
         .glGetShaderiv (env.shaderId type) GL_COMPILE_STATUS]) ∧
    (env.shaderId type ≠ 0 →
      ((compileShader env type source w).1 = 0 ↔ env.compileOk type source = false)) ∧
    (createShader env vertexShader fragmentShader w).1 = env.program ∧
    (∀ src, env.glfwInitOk = true → env.windowOk = true → env.glewOk = true →
      parseShader env.shaderFile = .ok src →
      ∃ pre post, (main env).2.calls
        = pre ++ [.glUseProgram env.program, .glfwWindowShouldClose] ++ post) ∧
    (∀ b, main { env with linkOk := b } = main env) := by
  refine ⟨?_, ?_, ?_, ?_, rfl, ?_, main_linkOk env⟩
  · rw [compileShader_fst]; rfl
  · intro h
    rw [compileShader_calls]
    simp [compileCalls, h]
  · intro h
    rw [compileShader_calls]
    simp [compileCalls, h]
  · intro hid
    rw [compileShader_fst]
    cases h : env.compileOk type source <;> simp [compiledId, h, hid]
  · intro src h1 h2 h3 h4
    rw [main_after_setup env src h1 h2 h3 h4]
    obtain ⟨post, hp⟩ := renderLoop_extends env env.frames (worldAtLoop env src)
    have hw : (worldAtLoop env src).calls
        = (initCalls ++ loaderCalls env ++ uploadCalls env ++ [.fstream shaderPath]
            ++ createCalls env src.VertexSource src.FragmentSource)
          ++ [.glUseProgram env.program] := by
      rw [worldAtLoop_calls]
      simp [shaderCalls, List.append_assoc]
    rw [hw] at hp
    cases hr : renderLoop env env.frames (worldAtLoop env src) with
    | mk o w1 =>
      rw [hr] at hp
      have hp2 : w1.calls = (initCalls ++ loaderCalls env ++ uploadCalls env
          ++ [.fstream shaderPath] ++ createCalls env src.VertexSource src.FragmentSource)
          ++ [.glUseProgram env.program] ++ .glfwWindowShouldClose :: post := hp
      cases o with
      | some outcome =>
        refine ⟨initCalls ++ loaderCalls env ++ uploadCalls env
          ++ [.fstream shaderPath] ++ createCalls env src.VertexSource src.FragmentSource,
          post, ?_⟩
        simp only [hp2]
        simp [List.append_assoc]
      | none =>
        refine ⟨initCalls ++ loaderCalls env ++ uploadCalls env
          ++ [.fstream shaderPath] ++ createCalls env src.VertexSource src.FragmentSource,
          post ++ [.glDeleteProgram env.program, .glfwTerminate], ?_⟩
        simp only [call_calls, hp2]
        simp [List.append_assoc]

theorem shader_failure_continues_witness :
    (compileShader envVertexFails GL_VERTEX_SHADER ['v', '\n'] { calls := [], errors := [] }).1 = 0 ∧
    (compileShader envVertexFails GL_VERTEX_SHADER ['v', '\n'] { calls := [], errors := [] }).2.calls
      = [.glCreateShader GL_VERTEX_SHADER, .glShaderSource 1 1 ['v', '\n'], .glCompileShader 1,
         .glGetShaderiv 1 GL_COMPILE_STATUS, .glGetShaderiv 1 GL_INFO_LOG_LENGTH,
         .glGetShaderInfoLog 1 10, .cout "Failed to compile vertex shader!\n0:1 error\n",
         .glDeleteShader 1] ∧
    (∃ pre post, (main envVertexFails).2.calls
      = pre ++ [.glUseProgram 3, .glfwWindowShouldClose] ++ post) :=
  have h := shader_failure_continues envVertexFails GL_VERTEX_SHADER ['v', '\n'] [] []
    { calls := [], errors := [] }
  ⟨(h.2.2.2.1 (by decide)).mpr (by decide), h.2.1 (by decide),
   h.2.2.2.2.2.1 ⟨['v', '\n'], ['f', '\n']⟩ rfl rfl rfl (by decide)⟩

/-- C4, as stated, fails: in a run where both stages compile and the program does not link,
the only console output is the version line. -/
theorem link_failure_prints_nothing :
    envLinkFails.linkOk = false ∧
    (main envLinkFails).1 = .returned 0 ∧
    (main envLinkFails).2.calls.filter isPrint = [.cout "4.6\n"] ∧
    Call.glLinkProgram 3 ∈ (main envLinkFails).2.calls := by
  decide

theorem renderLoop_untrapped (env : Env) : ∀ (n : Nat) (w : World),
    (renderLoop env n w).1 ≠ some .trapped →
    (renderLoop env n w).1 = none ∧
    ∃ d : List Nat, d.length = n ∧
      (renderLoop env n w).2.calls
        = w.calls ++ (d.map frameCalls).flatten ++ [.glfwWindowShouldClose] := by
  intro n
  induction n with
  | zero =>
    intro w _
    exact ⟨rfl, [], rfl, by simp [renderLoop]⟩
  | succ n ih =>
    intro w h
    simp only [renderLoop, GLCALL_eq] at h ⊢
    generalize hw2 : call env (.glClear GL_COLOR_BUFFER_BIT) (call env .glfwWindowShouldClose w)
      = w2 at h ⊢
    have hfst := glLogCall_fst drawText env.sourceFile 187 (drawElements env (drained w2))
    have hcalls := glLogCall_calls drawText env.sourceFile 187 (drawElements env (drained w2))
    cases hr : (glLogCall drawText env.sourceFile 187 (drawElements env (drained w2))).1 with
    | false =>
      simp [hr] at h
    | true =>
      simp only [hr, if_true] at h ⊢
      obtain ⟨hnone, d, hd, hc⟩ := ih _ h
      refine ⟨hnone, w2.errors.length :: d, by simp [hd], ?_⟩
      rw [hc]
      rw [hr] at hfst
      have hnil : (drawElements env (drained w2)).errors = [] := by simpa using hfst.symm
      rw [hnil] at hcalls
      have e1 : (drawElements env (drained w2)).calls
          = w2.calls ++ List.replicate (w2.errors.length + 1) .glGetError
            ++ [.glDrawElements GL_TRIANGLES drawCount GL_UNSIGNED_INT 0] := rfl
      have e2 : w2.calls = w.calls ++ [.glfwWindowShouldClose, .glClear GL_COLOR_BUFFER_BIT] := by
        rw [← hw2]
        simp
      simp only [call_calls]
      rw [hcalls, e1, e2]
      simp only [frameCalls, List.map_cons, List.flatten_cons, List.append_assoc,
        List.cons_append, List.nil_append]

theorem frameCalls_renderSteps (pending : Nat) :
    (frameCalls pending).filter isRenderStep = renderSteps := by
  have h : (List.replicate (pending + 1) Call.glGetError).filter isRenderStep = [] := by
    rw [List.filter_eq_nil_iff]
    intro c hc
    rw [(List.mem_replicate.mp hc).2]
    decide
  simp only [frameCalls, List.filter_append, h]
  rfl

theorem frames_renderSteps (d : List Nat) :
    ((d.map frameCalls).flatten).filter isRenderStep
      = (List.replicate d.length renderSteps).flatten := by
  induction d with
  | nil => rfl
  | cons p ps ih =>
    simp only [List.map_cons, List.flatten_cons, List.filter_append, frameCalls_renderSteps, ih,
      List.length_cons, List.replicate_succ]

theorem frames_no_upload (d : List Nat) :
    ∀ c ∈ (d.map frameCalls).flatten, isUploadOrCompile c = false := by
  intro c hc
  obtain ⟨l, hl, hcl⟩ := List.mem_flatten.mp hc
  obtain ⟨p, _, rfl⟩ := List.mem_map.mp hl
  simp only [frameCalls, List.mem_append, List.mem_cons, List.mem_singleton, List.not_mem_nil,
    or_false] at hcl
  rcases hcl with ((rfl | rfl) | h) | (rfl | rfl | rfl | rfl)
  · rfl
  · rfl
  · rw [(List.mem_replicate.mp h).2]; rfl
  · rfl
  · rfl
  · rfl
  · rfl

/-- C8: when start-up, parsing and both compilations succeed and no trap is raised, `main`
returns 0 and its calls are, in order: window and context initialisation, function
loading, geometry upload, shader parse, compile, link and use, then one frame per time the
window answered that it stays open, then the last loop test and the teardown. Each frame
is the loop test, the clear, the wrapped draw (its error fetches around the draw call),
the swap and the poll, so that the clear, draw, swap and poll calls of the loop are exactly
that four-call sequence repeated once per frame, and no call of the loop is one of geometry
upload or shader compilation. -/
theorem main_success_trace (env : Env) (source : ShaderProgramSource)
    (h1 : env.glfwInitOk = true) (h2 : env.windowOk = true) (h3 : env.glewOk = true)
    (h4 : parseShader env.shaderFile = .ok source)
    (h5 : env.compileOk GL_VERTEX_SHADER source.VertexSource = true)
    (h6 : env.compileOk GL_FRAGMENT_SHADER source.FragmentSource = true)
    (h7 : (main env).1 ≠ .trapped) :
    (main env).1 = .returned 0 ∧
    ∃ d : List Nat, d.length = env.frames ∧
      (main env).2.calls
        = initCalls ++ loaderCalls env ++ uploadCalls env
          ++ ([.fstream shaderPath, .glCreateProgram,
               .glCreateShader GL_VERTEX_SHADER,
               .glShaderSource (env.shaderId GL_VERTEX_SHADER) 1 source.VertexSource,
               .glCompileShader (env.shaderId GL_VERTEX_SHADER),
               .glGetShaderiv (env.shaderId GL_VERTEX_SHADER) GL_COMPILE_STATUS,
               .glCreateShader GL_FRAGMENT_SHADER,
               .glShaderSource (env.shaderId GL_FRAGMENT_SHADER) 1 source.FragmentSource,
               .glCompileShader (env.shaderId GL_FRAGMENT_SHADER),
               .glGetShaderiv (env.shaderId GL_FRAGMENT_SHADER) GL_COMPILE_STATUS,
               .glAttachShader env.program (env.shaderId GL_VERTEX_SHADER),
               .glAttachShader env.program (env.shaderId GL_FRAGMENT_SHADER),
               .glLinkProgram env.program, .glValidateProgram env.program,
               .glDeleteShader (env.shaderId GL_VERTEX_SHADER),
               .glDeleteShader (env.shaderId GL_FRAGMENT_SHADER),
               .glUseProgram env.program] : List Call)
          ++ (d.map frameCalls).flatten
          ++ teardownCalls env ∧
      ((d.map frameCalls).flatten).filter isRenderStep
        = (List.replicate env.frames renderSteps).flatten ∧
      ∀ c ∈ (d.map frameCalls).flatten, isUploadOrCompile c = false := by
  rw [main_after_setup env source h1 h2 h3 h4] at h7 ⊢
  have hloop := renderLoop_untrapped env env.frames (worldAtLoop env source)
  cases hr : renderLoop env env.frames (worldAtLoop env source) with
  | mk o w1 =>
    rw [hr] at h7 hloop
    have hne : o ≠ some .trapped := by
      intro ho
      subst ho
      exact h7 rfl
    obtain ⟨hnone, d, hd, hc⟩ := hloop hne
    have hnone2 : o = none := hnone
    subst hnone2
    have hc2 : w1.calls = (worldAtLoop env source).calls ++ (d.map frameCalls).flatten
        ++ [.glfwWindowShouldClose] := hc
    refine ⟨rfl, d, hd, ?_, ?_, frames_no_upload d⟩
    · simp only [call_calls, hc2, worldAtLoop_calls, shaderCalls, createCalls, compileCalls,
        compiledId, h5, h6, if_true, teardownCalls, List.append_assoc, List.cons_append,
        List.nil_append, List.append_nil]
    · rw [frames_renderSteps, hd]

theorem main_success_trace_witness :
    (main sampleEnv).1 = .returned 0 ∧
    ∃ d : List Nat, d.length = 2 ∧
      (main sampleEnv).2.calls
        = initCalls ++ loaderCalls sampleEnv ++ uploadCalls sampleEnv
          ++ ([.fstream shaderPath, .glCreateProgram,
               .glCreateShader GL_VERTEX_SHADER, .glShaderSource 1 1 ['v', '\n'],
               .glCompileShader 1, .glGetShaderiv 1 GL_COMPILE_STATUS,
               .glCreateShader GL_FRAGMENT_SHADER, .glShaderSource 2 1 ['f', '\n'],
               .glCompileShader 2, .glGetShaderiv 2 GL_COMPILE_STATUS,
               .glAttachShader 3 1, .glAttachShader 3 2,
               .glLinkProgram 3, .glValidateProgram 3,
               .glDeleteShader 1, .glDeleteShader 2,
               .glUseProgram 3] : List Call)
          ++ (d.map frameCalls).flatten
          ++ teardownCalls sampleEnv ∧
      ((d.map frameCalls).flatten).filter isRenderStep
        = (List.replicate 2 renderSteps).flatten ∧
      ∀ c ∈ (d.map frameCalls).flatten, isUploadOrCompile c = false :=
  main_success_trace sampleEnv ⟨['v', '\n'], ['f', '\n']⟩ rfl rfl rfl (by decide) rfl rfl
    (by decide)

end OpenGLTest
